import Mathlib

/-!
Verification of the race-strategy core: a shallow embedding in Lean 4 of
the tire degradation model (backend/tire_model.py), the pit window
selector (backend/pit_window_selector.py), the driving style manager
(backend/driving_style.py) and the interactive race simulator
(backend/interactive_race_simulator.py), together with theorems settling
the specification claims about them.  Real arithmetic is embedded as
rational arithmetic; fallible operations (numpy IndexError, reading the
first element of an empty list) return Option.
-/

namespace RaceStrategy

/-- Tire compounds available in the model. -/
inductive Compound where
  | SOFT
  | MEDIUM
  | HARD
deriving DecidableEq

/-- Per-compound characteristics from TireDegradationModel.COMPOUND_WEAR_RATES. -/
structure CompoundParams where
  initial_laptime : ℚ
  wear_start : ℚ
  wear_end : ℚ
  max_laps : ℕ

/-- The fixed compound table of tire_model.py. -/
def COMPOUND_WEAR_RATES : Compound → CompoundParams
  | Compound.SOFT => ⟨97, 4/100, 20/100, 25⟩
  | Compound.MEDIUM => ⟨978/10, 4/100, 12/100, 40⟩
  | Compound.HARD => ⟨985/10, 3/100, 8/100, 60⟩

/-- Fuel quantity constant (kg). -/
def FUEL_QUANTITY : ℚ := 110

/-- Seconds of lap time per kg of fuel. -/
def TIME_PER_KG : ℚ := 35/1000

/-- Fixed pit stop time loss in seconds. -/
def PIT_TIME_LOSS : ℚ := 25

/-- Element i of numpy.linspace a b n (n evenly spaced samples from a to b
inclusive), for 0 <= i < n and n >= 2: a + (b - a) * i / (n - 1). -/
def linspaceIdx (a b : ℚ) (n : ℕ) (i : ℕ) : ℚ :=
  a + (b - a) * i / ((n : ℚ) - 1)

/-- The mutable configuration of TireDegradationModel: race length, base lap
time and the driving style wear multiplier. -/
structure TireDegradationModel where
  total_laps : ℕ
  base_laptime : ℚ
  driving_style_multiplier : ℚ

/-- fuel consumption per lap: FUEL_QUANTITY / total_laps. -/
def TireDegradationModel.fuel_consumption_per_lap (m : TireDegradationModel) : ℚ :=
  FUEL_QUANTITY / m.total_laps

/-- fuel correction factor: time saved per lap as fuel burns. -/
def TireDegradationModel.fuel_correction_per_lap (m : TireDegradationModel) : ℚ :=
  m.fuel_consumption_per_lap * TIME_PER_KG

/-- get_tire_wear_rate of tire_model.py, on arbitrary integer lap_number.
Within nominal life it reads the linspace wear table at index
lap_number - 1 with numpy indexing semantics: a negative index in
[-max_laps, 0) silently wraps to the end of the table, and an index below
-max_laps raises IndexError (embedded as none).  Beyond max_laps it
returns the exponential cliff wear_end + wear_end * (3/2) ^ laps_over. -/
def get_tire_wear_rate (c : Compound) (lap_number : ℤ) : Option ℚ :=
  let p := COMPOUND_WEAR_RATES c
  let n : ℤ := p.max_laps
  if lap_number ≤ n then
    let idx : ℤ := lap_number - 1
    if 0 ≤ idx then
      some (linspaceIdx p.wear_start p.wear_end p.max_laps idx.toNat)
    else if -n ≤ idx then
      some (linspaceIdx p.wear_start p.wear_end p.max_laps (idx + n).toNat)
    else
      none
  else
    some (p.wear_end + p.wear_end * (3/2) ^ (lap_number - n).toNat)

/-- get_tire_wear_rate restricted to natural tire ages, where it always
returns a value: age 0 silently wraps (numpy index -1) to the last table
entry wear_end, ages 1..max_laps read the linspace table, and ages beyond
max_laps get the exponential cliff. -/
def wearRateN (c : Compound) (tire_age : ℕ) : ℚ :=
  let p := COMPOUND_WEAR_RATES c
  if tire_age ≤ p.max_laps then
    if tire_age = 0 then p.wear_end
    else linspaceIdx p.wear_start p.wear_end p.max_laps (tire_age - 1)
  else
    p.wear_end + p.wear_end * (3/2) ^ (tire_age - p.max_laps)

/-- calculate_laptime of tire_model.py: compound base lap time, plus wear
rate times (tire_age - 1) times the driving style multiplier, minus the
fuel correction (lap_number - 1 laps of fuel burnt). -/
def calculate_laptime (m : TireDegradationModel) (lap_number : ℕ) (tire_age : ℕ)
    (c : Compound) (include_fuel_effect : Bool) : ℚ :=
  let p := COMPOUND_WEAR_RATES c
  let wear_rate := wearRateN c tire_age
  let tire_deg := wear_rate * ((tire_age : ℚ) - 1) * m.driving_style_multiplier
  let fuel_correction : ℚ :=
    if include_fuel_effect then m.fuel_correction_per_lap * ((lap_number : ℚ) - 1) else 0
  p.initial_laptime + tire_deg - fuel_correction

/-- calculate_stint_time of tire_model.py: sum of lap times over the
inclusive lap range start_lap..end_lap, with tire age incrementing from
tire_age_start.  Lap number start_lap + k runs on tire age
tire_age_start + k. -/
def calculate_stint_time (m : TireDegradationModel) (start_lap end_lap : ℕ)
    (c : Compound) (tire_age_start : ℕ) : ℚ :=
  ((List.range (end_lap + 1 - start_lap)).map
    (fun k => calculate_laptime m (start_lap + k) (tire_age_start + k) c true)).sum

/-- A pit scenario before the post-sort annotation step of
optimal_pit_window. -/
structure BaseScenario where
  pit_lap : ℕ
  total_race_time : ℚ
  stint1_time : ℚ
  stint2_time : ℚ
  pit_loss : ℚ

/-- A fully annotated pit scenario as returned by optimal_pit_window. -/
structure Scenario where
  pit_lap : ℕ
  total_race_time : ℚ
  stint1_time : ℚ
  stint2_time : ℚ
  pit_loss : ℚ
  time_vs_optimal : ℚ
  description : String

/-- The candidate scenarios of optimal_pit_window, one per pit lap in
[current_lap, total_laps - 1], in candidate order. -/
def baseScenarios (m : TireDegradationModel) (current_lap : ℕ)
    (stint1_compound stint2_compound : Compound) : List BaseScenario :=
  (List.range' current_lap (m.total_laps - current_lap)).map (fun pit_lap =>
    let stint1_time := calculate_stint_time m current_lap pit_lap stint1_compound 1
    let stint2_time := calculate_stint_time m (pit_lap + 1) m.total_laps stint2_compound 1
    ⟨pit_lap, stint1_time + PIT_TIME_LOSS + stint2_time, stint1_time, stint2_time, PIT_TIME_LOSS⟩)

/-- Post-sort annotation of a scenario with its delta to the optimal total
time and the qualitative description band. -/
def addDelta (s : BaseScenario) (optimal_time : ℚ) : Scenario :=
  let tvo := s.total_race_time - optimal_time
  { pit_lap := s.pit_lap
    total_race_time := s.total_race_time
    stint1_time := s.stint1_time
    stint2_time := s.stint2_time
    pit_loss := s.pit_loss
    time_vs_optimal := tvo
    description :=
      if tvo = 0 then "Optimal pit window"
      else if tvo < 2 then "Good pit window"
      else if tvo < 5 then "Acceptable pit window"
      else "Suboptimal pit window" }

/-- Comparison used to sort scenarios by ascending total race time. -/
def scenLE (a b : BaseScenario) : Bool :=
  decide (a.total_race_time ≤ b.total_race_time)

/-- optimal_pit_window of tire_model.py: evaluates every candidate pit lap
in [current_lap, total_laps - 1], sorts by ascending total race time, and
annotates each scenario with its delta to the best one.  When the
candidate range is empty the source code reads scenarios[0] of an empty
list and raises IndexError, embedded here as none. -/
def optimal_pit_window (m : TireDegradationModel) (current_lap : ℕ)
    (stint1_compound stint2_compound : Compound) : Option (List Scenario) :=
  let scenarios := baseScenarios m current_lap stint1_compound stint2_compound
  match scenarios.mergeSort scenLE with
  | [] => none
  | s0 :: rest => some ((s0 :: rest).map (fun s => addDelta s s0.total_race_time))

/-- Recommendation strength of a pit window lap
(pit_window_selector.py). -/
inductive Rec where
  | HIGHLY_RECOMMENDED
  | RECOMMENDED
  | ACCEPTABLE
  | RISKY
  | DANGER
deriving DecidableEq

/-- A single lap entry of the pit window (class PitWindowLap), restricted
to the machine-relevant fields. -/
structure PitWindowLap where
  lap_number : ℕ
  tire_age_at_lap : ℕ
  tire_compound_before : Compound
  best_compound : Compound
  race_time_impact : ℚ
  recommendation : Rec
deriving DecidableEq

/-- The result of _calculate_pit_impact_at_lap: a fixed 25.0 second
race time impact, and a best compound chosen by a one-stop heuristic on
the laps remaining after the pit. -/
def calculate_pit_impact_at_lap (laps_remaining : ℤ) : ℚ × Compound :=
  if 35 < laps_remaining then (25, Compound.HARD)
  else if 15 < laps_remaining then (25, Compound.MEDIUM)
  else (25, Compound.SOFT)

/-- Loop state of the generate_pit_window offset loop: the lap details
accumulated so far and the tracked best lap and best impact (best impact
starts as positive infinity, embedded as none). -/
structure GenLoopState where
  lap_details : List PitWindowLap
  best_lap : Option ℕ
  best_impact : Option ℚ

/-- True when the tracked best impact is still positive infinity or
strictly larger than the new impact (the update test of the loop). -/
def impactImproves (best_impact : Option ℚ) (impact : ℚ) : Bool :=
  match best_impact with
  | none => true
  | some b => decide (impact < b)

/-- One iteration of the generate_pit_window offset loop: classify the lap
by wear fraction, append its entry, and update the tracked best lap. -/
def genStep (current_lap current_tire_age : ℕ) (current_compound : Compound)
    (laps_remaining : ℤ) (max_laps : ℕ) (st : GenLoopState) (offset : ℕ) : GenLoopState :=
  let pit_lap := current_lap + offset
  let tire_age_at_pit := current_tire_age + offset
  let impact := calculate_pit_impact_at_lap (laps_remaining - offset)
  let tire_age_pct : ℚ := (tire_age_at_pit : ℚ) / (max_laps : ℚ)
  let rec_level : Rec :=
    if tire_age_pct < 70/100 then Rec.ACCEPTABLE
    else if tire_age_pct ≤ 85/100 then
      (if st.best_impact = some impact.1 then Rec.HIGHLY_RECOMMENDED else Rec.RECOMMENDED)
    else if tire_age_pct ≤ 95/100 then Rec.RISKY
    else Rec.DANGER
  let entry : PitWindowLap :=
    ⟨pit_lap, tire_age_at_pit, current_compound, impact.2, impact.1, rec_level⟩
  { lap_details := st.lap_details ++ [entry]
    best_lap := if impactImproves st.best_impact impact.1 then some pit_lap else st.best_lap
    best_impact := if impactImproves st.best_impact impact.1 then some impact.1 else st.best_impact }

/-- A lap counts toward the recommended (green) window when its level is
HIGHLY_RECOMMENDED or RECOMMENDED. -/
def isGreen (l : PitWindowLap) : Bool :=
  decide (l.recommendation = Rec.HIGHLY_RECOMMENDED) || decide (l.recommendation = Rec.RECOMMENDED)

/-- The optimal lap and compound selection at the end of
generate_pit_window: the middle entry of the green band when it is
non-empty, else the last acceptable entry, else the first lap entry
matching the tracked best lap (StopIteration of the source generator
expression is embedded as none). -/
def pickOptimal (lap_details : List PitWindowLap) (best_lap : Option ℕ) :
    Option (ℕ × Compound) :=
  let recommended := lap_details.filter isGreen
  let acceptable := lap_details.filter (fun l => decide (l.recommendation = Rec.ACCEPTABLE))
  match recommended.get? (recommended.length / 2) with
  | some mid => some (mid.lap_number, mid.best_compound)
  | none =>
    match acceptable.getLast? with
    | some last => some (last.lap_number, last.best_compound)
    | none =>
      match best_lap with
      | some bl =>
        match (lap_details.filter (fun l => decide (l.lap_number = bl))).head? with
        | some l => some (l.lap_number, l.best_compound)
        | none => none
      | none => none

/-- Result of generate_pit_window, restricted to the fields the claims
are about. -/
structure PitWindow where
  lap_details : List PitWindowLap
  recommended_window : List ℕ
  acceptable_window : List ℕ
  risky_window : List ℕ
  danger_window : List ℕ
  optimal_lap : Option ℕ
  optimal_compound : Option Compound
  best_lap : Option ℕ
  best_impact : Option ℚ

/-- generate_pit_window of pit_window_selector.py: analyze pit options for
offsets 0..min(15, laps_remaining), classify each lap by the wear fraction
tire age / max laps, and pick the optimal lap as the middle entry of the
green band, falling back to the last acceptable lap and then to the
tracked best lap. -/
def generate_pit_window (current_lap current_tire_age : ℕ)
    (current_compound : Compound) (laps_remaining : ℕ) : PitWindow :=
  let max_laps := (COMPOUND_WEAR_RATES current_compound).max_laps
  let window_size := min 15 laps_remaining
  let final := (List.range (window_size + 1)).foldl
    (genStep current_lap current_tire_age current_compound (laps_remaining : ℤ) max_laps)
    ⟨[], none, none⟩
  let lap_details := final.lap_details
  let recommended := lap_details.filter isGreen
  let acceptable := lap_details.filter (fun l => decide (l.recommendation = Rec.ACCEPTABLE))
  let risky := lap_details.filter (fun l => decide (l.recommendation = Rec.RISKY))
  let danger := lap_details.filter (fun l => decide (l.recommendation = Rec.DANGER))
  let chosen : Option (ℕ × Compound) := pickOptimal lap_details final.best_lap
  { lap_details := lap_details
    recommended_window := recommended.map (fun l => l.lap_number)
    acceptable_window := acceptable.map (fun l => l.lap_number)
    risky_window := risky.map (fun l => l.lap_number)
    danger_window := danger.map (fun l => l.lap_number)
    optimal_lap := chosen.map (fun p => p.1)
    optimal_compound := chosen.map (fun p => p.2)
    best_lap := final.best_lap
    best_impact := final.best_impact }

/-- never_pit outcome of _calculate_never_pit_impact. -/
structure NeverPitImpact where
  possible : Bool
  penalty : ℚ
  final_tire_age : ℕ
  laps_over_cliff : ℕ

/-- _calculate_never_pit_impact of pit_window_selector.py: if the
projected final tire age exceeds max laps, an exponential catastrophe
penalty of sum over k < laps_over_cliff of 10 * (3/2) ^ k, else viable
with zero penalty. -/
def calculate_never_pit_impact (current_tire_age : ℕ) (current_compound : Compound)
    (laps_remaining : ℕ) : NeverPitImpact :=
  let max_laps := (COMPOUND_WEAR_RATES current_compound).max_laps
  let final_tire_age := current_tire_age + laps_remaining
  if max_laps < final_tire_age then
    let laps_over_cliff := final_tire_age - max_laps
    ⟨false, ((List.range laps_over_cliff).map (fun i => 10 * (3/2 : ℚ) ^ i)).sum,
      final_tire_age, laps_over_cliff⟩
  else
    ⟨true, 0, final_tire_age, 0⟩

/-- Driving styles of driving_style.py. -/
inductive DrivingStyle where
  | AGGRESSIVE
  | BALANCED
  | CONSERVATIVE
  | QUALI_MODE
  | TIRE_SAVE
deriving DecidableEq

/-- Numeric part of a style profile from
DrivingStyleManager.STYLE_PROFILES. -/
structure StyleProfile where
  lap_time_delta : ℚ
  tire_wear_multiplier : ℚ
  fuel_multiplier : ℚ
  overtaking_bonus : ℚ

/-- The fixed style profile table of driving_style.py. -/
def STYLE_PROFILES : DrivingStyle → StyleProfile
  | DrivingStyle.AGGRESSIVE => ⟨-3/10, 14/10, 115/100, 25/100⟩
  | DrivingStyle.BALANCED => ⟨0, 1, 1, 0⟩
  | DrivingStyle.CONSERVATIVE => ⟨4/10, 7/10, 90/100, -15/100⟩
  | DrivingStyle.QUALI_MODE => ⟨-8/10, 3, 130/100, 50/100⟩
  | DrivingStyle.TIRE_SAVE => ⟨8/10, 5/10, 85/100, -30/100⟩

/-- A recorded driving style change. -/
structure StyleChange where
  lap : ℕ
  from_style : DrivingStyle
  to_style : DrivingStyle
  reason : String
  laps_in_previous : ℕ

/-- Mutable state of DrivingStyleManager. -/
structure DrivingStyleManager where
  current_style : DrivingStyle
  style_history : List StyleChange
  laps_in_current_style : ℕ

/-- set_style of driving_style.py: on an actual change, record it, switch
the current style and reset the lap counter; in all cases increment the
laps spent in the current style. -/
def set_style (mgr : DrivingStyleManager) (new_style : DrivingStyle)
    (lap_number : ℕ) (reason : String) : DrivingStyleManager :=
  let mgr1 :=
    if new_style ≠ mgr.current_style then
      { current_style := new_style
        style_history := mgr.style_history ++
          [⟨lap_number, mgr.current_style, new_style, reason, mgr.laps_in_current_style⟩]
        laps_in_current_style := 0 }
    else mgr
  { mgr1 with laps_in_current_style := mgr1.laps_in_current_style + 1 }

/-- get_tire_wear_multiplier of the style manager. -/
def get_tire_wear_multiplier (mgr : DrivingStyleManager) : ℚ :=
  (STYLE_PROFILES mgr.current_style).tire_wear_multiplier

/-- get_lap_time_adjustment of the style manager. -/
def get_lap_time_adjustment (mgr : DrivingStyleManager) : ℚ :=
  (STYLE_PROFILES mgr.current_style).lap_time_delta

/-- A recorded pit stop of the race state. -/
structure PitStop where
  lap : ℕ
  compound : Compound
  reason : String

/-- A recorded decision of the race state: the lap it was taken on and
the chosen option (id, category, title, action name). -/
structure DecisionRecord where
  lap : ℕ
  option_id : ℕ
  category : String
  title : String
  action : String

/-- RaceState of interactive_race_simulator.py. -/
structure RaceState where
  current_lap : ℕ
  position : ℕ
  total_race_time : ℚ
  tire_compound : Compound
  tire_age : ℕ
  driving_style : DrivingStyle
  pit_stops : List PitStop
  decisions_made : List DecisionRecord

/-- The action of a DecisionOption together with its parameters
(the action string plus the parameters dict of the source). -/
inductive DecisionAct where
  | PIT_NOW (compound : Compound)
  | STAY_OUT (extend_laps : ℕ)
  | SET_STYLE (style : DrivingStyle)

/-- The action string stored in the decision history record. -/
def actionName : DecisionAct → String
  | DecisionAct.PIT_NOW _ => "PIT_NOW"
  | DecisionAct.STAY_OUT _ => "STAY_OUT"
  | DecisionAct.SET_STYLE _ => "SET_STYLE"

/-- A strategic option presented to the user, restricted to the fields
execute_decision reads. -/
structure DecisionOption where
  option_id : ℕ
  category : String
  title : String
  action : DecisionAct

/-- True when the last recorded decision happened within the previous
3 laps (the demo mode recent-decision window of should_offer_decision). -/
def recentDecision (decisions : List DecisionRecord) (lap_number : ℕ) : Bool :=
  match decisions.getLast? with
  | none => false
  | some d => decide ((lap_number : ℤ) - (d.lap : ℤ) < 3)

/-- should_offer_decision of interactive_race_simulator.py: lap 1 is
always a decision lap; otherwise, with no started state no decision is
due; otherwise the wear-fraction conditions of demo or full mode apply.
Full mode has no cooldown of any kind; demo mode suppresses its two
wear-fraction triggers while a decision was recorded within the previous
3 laps. -/
def should_offer_decision (demo_mode : Bool) (total_laps : ℕ)
    (state? : Option RaceState) (lap_number : ℕ) : Bool :=
  if lap_number = 1 then true
  else
    match state? with
    | none => false
    | some s =>
      let max_laps := (COMPOUND_WEAR_RATES s.tire_compound).max_laps
      let tire_age_pct : ℚ := (s.tire_age : ℚ) / (max_laps : ℚ)
      let laps_remaining : ℤ := (total_laps : ℤ) - (lap_number : ℤ)
      if demo_mode then
        let recent := recentDecision s.decisions_made lap_number
        if 1 ≤ tire_age_pct ∧ tire_age_pct < 105/100 ∧ recent = false then true
        else if 85/100 ≤ tire_age_pct ∧ tire_age_pct < 87/100 ∧ recent = false then true
        else if laps_remaining = 0 then true
        else false
      else
        if 1 ≤ tire_age_pct then true
        else if 70/100 ≤ tire_age_pct then true
        else if 40/100 ≤ tire_age_pct ∧ 10 ≤ s.tire_age then true
        else if laps_remaining ≤ 3 then true
        else if lap_number % 10 = 0 then true
        else false

/-- simulate_lap of interactive_race_simulator.py: computes the lap time
from the tire model at the current tire age, adds the driving style lap
time delta, increments the tire age by exactly one, and accumulates the
total race time.  Returns the lap time and the updated state. -/
def simulate_lap (tm : TireDegradationModel) (mgr : DrivingStyleManager)
    (s : RaceState) (lap_number : ℕ) : ℚ × RaceState :=
  let base_lap_time := calculate_laptime tm lap_number s.tire_age s.tire_compound true
  let lap_time := base_lap_time + get_lap_time_adjustment mgr
  (lap_time,
    { s with
      tire_age := s.tire_age + 1
      total_race_time := s.total_race_time + lap_time })

/-- execute_decision of interactive_race_simulator.py, acting on the tire
model, the style manager and the race state.  PIT_NOW appends a pit stop
record, switches the compound, sets the tire age to 1 (fresh) and adds
the 25 second pit loss; STAY_OUT changes nothing; SET_STYLE updates the
state style, the style manager and the tire model wear multiplier.
Every branch then appends one record to the decision history. -/
def execute_decision (tm : TireDegradationModel) (mgr : DrivingStyleManager)
    (s : RaceState) (opt : DecisionOption) :
    TireDegradationModel × DrivingStyleManager × RaceState :=
  let step : TireDegradationModel × DrivingStyleManager × RaceState :=
    match opt.action with
    | DecisionAct.PIT_NOW compound =>
      (tm, mgr,
        { s with
          pit_stops := s.pit_stops ++ [⟨s.current_lap, compound, opt.title⟩]
          tire_compound := compound
          tire_age := 1
          total_race_time := s.total_race_time + 25 })
    | DecisionAct.STAY_OUT _ => (tm, mgr, s)
    | DecisionAct.SET_STYLE new_style =>
      let mgr1 := set_style mgr new_style s.current_lap opt.title
      ({ tm with driving_style_multiplier := get_tire_wear_multiplier mgr1 },
        mgr1,
        { s with driving_style := new_style })
  (step.1, step.2.1,
    { step.2.2 with
      decisions_made := step.2.2.decisions_made ++
        [⟨s.current_lap, opt.option_id, opt.category, opt.title, actionName opt.action⟩] })

/-- Truncation toward zero, the behavior of the Python int() conversion
on a float. -/
def pyInt (q : ℚ) : ℤ :=
  if 0 ≤ q then ⌊q⌋ else ⌈q⌉

/-- The per-lap tire age update of the REST server lap loop
(api_server.py, run_next_segment): the fractional effective tire age
accumulates by the wear multiplier and the state tire age is overwritten
with its integer truncation.  Returns the new effective tire age and the
new state tire age. -/
def apiEffectiveTireAgeStep (effective_tire_age wear_multiplier : ℚ) : ℚ × ℤ :=
  let e := effective_tire_age + wear_multiplier
  (e, pyInt e)

/-- Closed form of the wear-fraction classification performed inside the
generate_pit_window loop.  The flag first records whether the tracked
best impact is still unset, which in the loop happens exactly at the
first offset; it only influences the green band sub-level. -/
def classifyPct (pct : ℚ) (first : Bool) : Rec :=
  if pct < 70/100 then Rec.ACCEPTABLE
  else if pct ≤ 85/100 then (if first then Rec.RECOMMENDED else Rec.HIGHLY_RECOMMENDED)
  else if pct ≤ 95/100 then Rec.RISKY
  else Rec.DANGER

/-- Closed form of the lap entry built by one generate_pit_window loop
iteration at a given offset. -/
def lapDetailAt (current_lap current_tire_age : ℕ) (cc : Compound)
    (laps_remaining : ℤ) (max_laps : ℕ) (first : Bool) (offset : ℕ) : PitWindowLap :=
  ⟨current_lap + offset, current_tire_age + offset, cc,
    (calculate_pit_impact_at_lap (laps_remaining - offset)).2, 25,
    classifyPct (((current_tire_age + offset : ℕ) : ℚ) / (max_laps : ℚ)) first⟩

/-- The green (recommended) band of a generated pit window. -/
def greenBand (w : PitWindow) : List PitWindowLap :=
  w.lap_details.filter isGreen

/-- The acceptable (yellow) band of a generated pit window. -/
def accBand (w : PitWindow) : List PitWindowLap :=
  w.lap_details.filter (fun l => decide (l.recommendation = Rec.ACCEPTABLE))

/-! ## Basic lemmas about the embedded definitions -/

/-- The heuristic pit impact is the constant 25 regardless of the laps
remaining. -/
theorem calculate_pit_impact_fst (laps_remaining : ℤ) :
    (calculate_pit_impact_at_lap laps_remaining).1 = 25 := by
  unfold calculate_pit_impact_at_lap
  split_ifs <;> rfl

/-- Every compound has a strictly positive end-of-life wear rate. -/
theorem wear_end_pos (c : Compound) : 0 < (COMPOUND_WEAR_RATES c).wear_end := by
  cases c <;> norm_num [COMPOUND_WEAR_RATES]

/-! ## C1: effect of executing a pit-now decision -/

/-- C1 (corrected claim, counterexample): at a concrete race state on lap
20 with 18-lap-old SOFT tires and cumulative time 1000, executing the
pit-now-for-MEDIUM option leaves tire_age equal to 1 (the fresh-tire
convention of the simulator), not 0, refuting the claimed conjunction
that tire_age becomes 0 and that the cumulative time grows by
PIT_TIME_LOSS plus the lap time of the current lap. -/
theorem C1_counterexample :
    (execute_decision ⟨57, 965/10, 1⟩ ⟨DrivingStyle.BALANCED, [], 5⟩
        ⟨20, 3, 1000, Compound.SOFT, 18, DrivingStyle.BALANCED, [], []⟩
        ⟨1, "PIT_STOP", "Pit Now - Medium Tires", DecisionAct.PIT_NOW Compound.MEDIUM⟩).2.2.tire_age = 1 ∧
    ¬ ((execute_decision ⟨57, 965/10, 1⟩ ⟨DrivingStyle.BALANCED, [], 5⟩
        ⟨20, 3, 1000, Compound.SOFT, 18, DrivingStyle.BALANCED, [], []⟩
        ⟨1, "PIT_STOP", "Pit Now - Medium Tires", DecisionAct.PIT_NOW Compound.MEDIUM⟩).2.2.tire_age = 0 ∧
      (execute_decision ⟨57, 965/10, 1⟩ ⟨DrivingStyle.BALANCED, [], 5⟩
        ⟨20, 3, 1000, Compound.SOFT, 18, DrivingStyle.BALANCED, [], []⟩
        ⟨1, "PIT_STOP", "Pit Now - Medium Tires", DecisionAct.PIT_NOW Compound.MEDIUM⟩).2.2.total_race_time =
        1000 + PIT_TIME_LOSS + calculate_laptime ⟨57, 965/10, 1⟩ 20 18 Compound.SOFT true) := by
  constructor
  · rfl
  · rintro ⟨h0, -⟩
    simp [execute_decision] at h0

/-- C1 (amended): executing a pit-now decision for compound C appends one
entry (current lap, C, option title) to the pit history, switches the
compound to C, sets the tire age to 1 (the fresh-tire convention used by
start_race), increases the cumulative race time by exactly PIT_TIME_LOSS
(the lap time of the current lap is added separately by simulate_lap),
appends one record to the decision history, and leaves the current lap,
position, driving style, tire model and style manager unchanged. -/
theorem C1_execute_pit_now (tm : TireDegradationModel) (mgr : DrivingStyleManager)
    (s : RaceState) (opt : DecisionOption) (c : Compound)
    (h : opt.action = DecisionAct.PIT_NOW c) :
    (execute_decision tm mgr s opt).1 = tm ∧
    (execute_decision tm mgr s opt).2.1 = mgr ∧
    (execute_decision tm mgr s opt).2.2.tire_age = 1 ∧
    (execute_decision tm mgr s opt).2.2.tire_compound = c ∧
    (execute_decision tm mgr s opt).2.2.pit_stops =
      s.pit_stops ++ [⟨s.current_lap, c, opt.title⟩] ∧
    (execute_decision tm mgr s opt).2.2.total_race_time = s.total_race_time + PIT_TIME_LOSS ∧
    (execute_decision tm mgr s opt).2.2.decisions_made =
      s.decisions_made ++ [⟨s.current_lap, opt.option_id, opt.category, opt.title, "PIT_NOW"⟩] ∧
    (execute_decision tm mgr s opt).2.2.current_lap = s.current_lap ∧
    (execute_decision tm mgr s opt).2.2.position = s.position ∧
    (execute_decision tm mgr s opt).2.2.driving_style = s.driving_style := by
  simp [execute_decision, h, actionName, PIT_TIME_LOSS]

/-- C1 witness: the amended pit-now theorem applied at the concrete lap 20
state used in the counterexample. -/
theorem C1_witness :
    (execute_decision ⟨57, 965/10, 1⟩ ⟨DrivingStyle.BALANCED, [], 5⟩
        ⟨20, 3, 1000, Compound.SOFT, 18, DrivingStyle.BALANCED, [], []⟩
        ⟨1, "PIT_STOP", "Pit Now - Medium Tires", DecisionAct.PIT_NOW Compound.MEDIUM⟩).2.2.tire_age = 1 ∧
    (execute_decision ⟨57, 965/10, 1⟩ ⟨DrivingStyle.BALANCED, [], 5⟩
        ⟨20, 3, 1000, Compound.SOFT, 18, DrivingStyle.BALANCED, [], []⟩
        ⟨1, "PIT_STOP", "Pit Now - Medium Tires", DecisionAct.PIT_NOW Compound.MEDIUM⟩).2.2.tire_compound = Compound.MEDIUM ∧
    (execute_decision ⟨57, 965/10, 1⟩ ⟨DrivingStyle.BALANCED, [], 5⟩
        ⟨20, 3, 1000, Compound.SOFT, 18, DrivingStyle.BALANCED, [], []⟩
        ⟨1, "PIT_STOP", "Pit Now - Medium Tires", DecisionAct.PIT_NOW Compound.MEDIUM⟩).2.2.total_race_time = 1000 + PIT_TIME_LOSS := by
  have h := C1_execute_pit_now ⟨57, 965/10, 1⟩ ⟨DrivingStyle.BALANCED, [], 5⟩
    ⟨20, 3, 1000, Compound.SOFT, 18, DrivingStyle.BALANCED, [], []⟩
    ⟨1, "PIT_STOP", "Pit Now - Medium Tires", DecisionAct.PIT_NOW Compound.MEDIUM⟩
    Compound.MEDIUM rfl
  exact ⟨h.2.2.1, h.2.2.2.1, h.2.2.2.2.2.1⟩

/-! ## C2: tire age accumulation per simulated lap -/

/-- C2 (corrected claim, counterexample): with the AGGRESSIVE driving
style (tire wear multiplier 1.4) active, a simulated lap increases the
race state tire age by exactly 1, not by the wear multiplier, refuting
the claim that the step increases tire age by the driving-style wear
multiplier. -/
theorem C2_counterexample :
    ((simulate_lap ⟨57, 965/10, 14/10⟩ ⟨DrivingStyle.AGGRESSIVE, [], 1⟩
        ⟨12, 3, 1200, Compound.SOFT, 5, DrivingStyle.AGGRESSIVE, [], []⟩ 12).2.tire_age : ℚ) -
      ((5 : ℕ) : ℚ) ≠
      get_tire_wear_multiplier ⟨DrivingStyle.AGGRESSIVE, [], 1⟩ := by
  norm_num [simulate_lap, get_tire_wear_multiplier, STYLE_PROFILES]

/-- C2 (amended): simulate_lap increments the tire age by exactly one lap
regardless of the driving style; the style wear multiplier instead enters
the lap time through the tire model, and the fractional tire-age
accumulation truncated by int() exists only in the REST server lap loop,
whose per-lap update adds the wear multiplier to the effective tire age
and overwrites the state tire age with its truncation. -/
theorem C2_simulate_lap_ages_by_one (tm : TireDegradationModel)
    (mgr : DrivingStyleManager) (s : RaceState) (lap_number : ℕ) :
    (simulate_lap tm mgr s lap_number).2.tire_age = s.tire_age + 1 ∧
    (simulate_lap tm mgr s lap_number).1 =
      calculate_laptime tm lap_number s.tire_age s.tire_compound true +
        get_lap_time_adjustment mgr ∧
    (simulate_lap tm mgr s lap_number).2.total_race_time =
      s.total_race_time + (simulate_lap tm mgr s lap_number).1 ∧
    ∀ e w : ℚ, (apiEffectiveTireAgeStep e w).1 = e + w ∧
      (apiEffectiveTireAgeStep e w).2 = pyInt (e + w) := by
  refine ⟨rfl, rfl, rfl, fun e w => ⟨rfl, rfl⟩⟩

/-! ## C3: decision-due predicate on lap 1 and cooldowns -/

/-- C3 (corrected claim, counterexample): in full mode, with SOFT tires
at age 20 (wear fraction 0.80) and a pit-category decision recorded at
lap 30, the decision predicate still returns true at lap 31, refuting
the claimed 5-lap cooldown (full mode has no cooldown at all). -/
theorem C3_counterexample :
    should_offer_decision false 57
      (some ⟨31, 3, 3000, Compound.SOFT, 20, DrivingStyle.BALANCED, [],
        [⟨30, 1, "PIT_STOP", "Pit Now - Medium Tires", "PIT_NOW"⟩]⟩) 31 = true := by
  norm_num [should_offer_decision, COMPOUND_WEAR_RATES]

/-- C3 (amended): a decision is always due on lap 1; and the only cooldown
in the predicate is the demo-mode one: in demo mode, when the last
recorded decision (of any category) happened within the previous 3 laps
and the race is not on its final lap, the predicate returns false
regardless of the wear fraction.  Full mode has no cooldown. -/
theorem C3_lap1_and_demo_cooldown :
    (∀ (demo : Bool) (total : ℕ) (state? : Option RaceState),
      should_offer_decision demo total state? 1 = true) ∧
    (∀ (total : ℕ) (s : RaceState) (d : DecisionRecord) (lap : ℕ),
      s.decisions_made.getLast? = some d →
      d.lap < lap →
      (lap : ℤ) - (d.lap : ℤ) < 3 →
      lap ≠ 1 →
      (total : ℤ) - (lap : ℤ) ≠ 0 →
      should_offer_decision true total (some s) lap = false) := by
  constructor
  · intro demo total state?
    simp [should_offer_decision]
  · intro total s d lap hlast hlt hwin h1 hrem
    have hrecent : recentDecision s.decisions_made lap = true := by
      simp [recentDecision, hlast, hwin]
    simp only [should_offer_decision, if_neg h1]
    simp [hrecent, hrem]

/-- C3 witness: the amended theorem applied concretely: lap 1 is a
decision lap for an arbitrary concrete configuration, and in demo mode a
decision at lap 20 suppresses the lap 21 prompt even at 86 percent wear
(SOFT tires, age 21.5 would be fractional, so age 22 at 88 percent is
suppressed only through the 3-lap window). -/
theorem C3_witness :
    should_offer_decision false 57 none 1 = true ∧
    should_offer_decision true 57
      (some ⟨22, 3, 2000, Compound.SOFT, 22, DrivingStyle.BALANCED, [],
        [⟨20, 2, "PIT_STOP", "Stay Out - Extend Stint", "STAY_OUT"⟩]⟩) 22 = false := by
  constructor
  · exact C3_lap1_and_demo_cooldown.1 false 57 none
  · exact C3_lap1_and_demo_cooldown.2 57
      ⟨22, 3, 2000, Compound.SOFT, 22, DrivingStyle.BALANCED, [],
        [⟨20, 2, "PIT_STOP", "Stay Out - Extend Stint", "STAY_OUT"⟩]⟩
      ⟨20, 2, "PIT_STOP", "Stay Out - Extend Stint", "STAY_OUT"⟩ 22
      rfl (by decide) (by decide) (by decide) (by decide)

/-! ## C4: optimal_pit_window on an empty candidate range -/

/-- C4 (corrected claim, counterexample): on a 57-lap model queried at
current lap 57 the candidate range is empty and optimal_pit_window
produces no result at all (the source raises IndexError reading the
first element of the empty scenario list), rather than the claimed
explicit no-viable-strategy marker. -/
theorem C4_counterexample :
    optimal_pit_window ⟨57, 965/10, 1⟩ 57 Compound.SOFT Compound.MEDIUM = none := by
  simp [optimal_pit_window, baseScenarios]

/-- C4 (amended): whenever the current lap is at least the total race
length the candidate range of optimal_pit_window is empty and the
function fails with an uncaught IndexError (embedded as none); it returns
neither a marker value nor a list. -/
theorem C4_empty_range_errors (m : TireDegradationModel) (current_lap : ℕ)
    (c1 c2 : Compound) (h : m.total_laps ≤ current_lap) :
    optimal_pit_window m current_lap c1 c2 = none := by
  have hz : m.total_laps - current_lap = 0 := Nat.sub_eq_zero_of_le h
  simp [optimal_pit_window, baseScenarios, hz]

/-- C4 witness: the amended theorem applied at a 57-lap model queried at
lap 60. -/
theorem C4_witness :
    optimal_pit_window ⟨57, 965/10, 1⟩ 60 Compound.SOFT Compound.MEDIUM = none :=
  C4_empty_range_errors ⟨57, 965/10, 1⟩ 60 Compound.SOFT Compound.MEDIUM (by norm_num)

/-! ## C10: frame property of a STAY_OUT decision -/

/-- C10: executing a STAY_OUT option changes no race-state field - the
current lap, position, cumulative time, compound, tire age, driving style
and pit history are untouched, and the tire model and style manager are
untouched as well - except that exactly one record carrying the lap
number and the chosen option is appended to the decision history. -/
theorem C10_stay_out_frame (tm : TireDegradationModel) (mgr : DrivingStyleManager)
    (s : RaceState) (opt : DecisionOption) (n : ℕ)
    (h : opt.action = DecisionAct.STAY_OUT n) :
    (execute_decision tm mgr s opt).1 = tm ∧
    (execute_decision tm mgr s opt).2.1 = mgr ∧
    (execute_decision tm mgr s opt).2.2.current_lap = s.current_lap ∧
    (execute_decision tm mgr s opt).2.2.position = s.position ∧
    (execute_decision tm mgr s opt).2.2.total_race_time = s.total_race_time ∧
    (execute_decision tm mgr s opt).2.2.tire_compound = s.tire_compound ∧
    (execute_decision tm mgr s opt).2.2.tire_age = s.tire_age ∧
    (execute_decision tm mgr s opt).2.2.driving_style = s.driving_style ∧
    (execute_decision tm mgr s opt).2.2.pit_stops = s.pit_stops ∧
    (execute_decision tm mgr s opt).2.2.decisions_made =
      s.decisions_made ++ [⟨s.current_lap, opt.option_id, opt.category, opt.title, "STAY_OUT"⟩] := by
  simp [execute_decision, h, actionName]

/-- C10 witness: the frame theorem applied to the concrete stay-out option
on lap 25. -/
theorem C10_witness :
    (execute_decision ⟨57, 965/10, 1⟩ ⟨DrivingStyle.BALANCED, [], 3⟩
        ⟨25, 4, 2400, Compound.MEDIUM, 12, DrivingStyle.BALANCED,
          [⟨10, Compound.MEDIUM, "Pit Now - Medium Tires"⟩], []⟩
        ⟨2, "PIT_STOP", "Stay Out - Extend Stint", DecisionAct.STAY_OUT 3⟩).2.2.tire_age = 12 ∧
    (execute_decision ⟨57, 965/10, 1⟩ ⟨DrivingStyle.BALANCED, [], 3⟩
        ⟨25, 4, 2400, Compound.MEDIUM, 12, DrivingStyle.BALANCED,
          [⟨10, Compound.MEDIUM, "Pit Now - Medium Tires"⟩], []⟩
        ⟨2, "PIT_STOP", "Stay Out - Extend Stint", DecisionAct.STAY_OUT 3⟩).2.2.total_race_time = 2400 ∧
    (execute_decision ⟨57, 965/10, 1⟩ ⟨DrivingStyle.BALANCED, [], 3⟩
        ⟨25, 4, 2400, Compound.MEDIUM, 12, DrivingStyle.BALANCED,
          [⟨10, Compound.MEDIUM, "Pit Now - Medium Tires"⟩], []⟩
        ⟨2, "PIT_STOP", "Stay Out - Extend Stint", DecisionAct.STAY_OUT 3⟩).2.2.decisions_made =
      [⟨25, 2, "PIT_STOP", "Stay Out - Extend Stint", "STAY_OUT"⟩] := by
  have h := C10_stay_out_frame ⟨57, 965/10, 1⟩ ⟨DrivingStyle.BALANCED, [], 3⟩
    ⟨25, 4, 2400, Compound.MEDIUM, 12, DrivingStyle.BALANCED,
      [⟨10, Compound.MEDIUM, "Pit Now - Medium Tires"⟩], []⟩
    ⟨2, "PIT_STOP", "Stay Out - Extend Stint", DecisionAct.STAY_OUT 3⟩ 3 rfl
  exact ⟨h.2.2.2.2.2.2.1, h.2.2.2.2.1, h.2.2.2.2.2.2.2.2.2⟩

/-! ## C5: wear-rate queries at non-positive tire age -/

/-- C5 (corrected claim, counterexample): querying the SOFT wear rate at
tire age 0 does not fail at all: the table index -1 silently wraps to the
last linspace entry and the call returns the end-of-life wear rate 1/5,
refuting the claim that non-positive tire ages fail fast with a
descriptive error. -/
theorem C5_counterexample :
    get_tire_wear_rate Compound.SOFT 0 = some (1/5) := by
  norm_num [get_tire_wear_rate, COMPOUND_WEAR_RATES, linspaceIdx, Int.toNat]

/-- C5 (amended): a wear-rate query at tire age 0 silently returns the
wrapped last table entry, the compound end-of-life wear rate (numpy index
-1); only tire ages at or below minus max_laps raise an error (a bare
IndexError, embedded as none, not a descriptive one); and tire age beyond
max_laps returns the documented cliff extrapolation without error. -/
theorem C5_wear_rate_nonpositive_age (c : Compound) :
    get_tire_wear_rate c 0 = some (COMPOUND_WEAR_RATES c).wear_end ∧
    (∀ z : ℤ, z ≤ -((COMPOUND_WEAR_RATES c).max_laps : ℤ) →
      get_tire_wear_rate c z = none) ∧
    (∀ z : ℤ, ((COMPOUND_WEAR_RATES c).max_laps : ℤ) < z →
      get_tire_wear_rate c z =
        some ((COMPOUND_WEAR_RATES c).wear_end +
          (COMPOUND_WEAR_RATES c).wear_end *
            (3/2) ^ (z - ((COMPOUND_WEAR_RATES c).max_laps : ℤ)).toNat)) := by
  refine ⟨?_, ?_, ?_⟩
  · cases c <;> norm_num [get_tire_wear_rate, COMPOUND_WEAR_RATES, linspaceIdx, Int.toNat]
  · intro z hz
    have hmax : (1 : ℤ) ≤ ((COMPOUND_WEAR_RATES c).max_laps : ℤ) := by
      cases c <;> norm_num [COMPOUND_WEAR_RATES]
    simp only [get_tire_wear_rate]
    rw [if_pos (by omega), if_neg (by omega), if_neg (by omega)]
  · intro z hz
    simp only [get_tire_wear_rate]
    rw [if_neg (by omega)]

/-- C5 witness: the amended theorem applied to SOFT tires: age -25 raises
(none), and age 26 returns the one-lap cliff value 1/2 without error. -/
theorem C5_witness :
    get_tire_wear_rate Compound.SOFT (-25) = none ∧
    get_tire_wear_rate Compound.SOFT 26 = some (1/2) := by
  constructor
  · exact (C5_wear_rate_nonpositive_age Compound.SOFT).2.1 (-25) (by norm_num [COMPOUND_WEAR_RATES])
  · have h := (C5_wear_rate_nonpositive_age Compound.SOFT).2.2 26 (by norm_num [COMPOUND_WEAR_RATES])
    norm_num [COMPOUND_WEAR_RATES] at h
    exact h

/-! ## C6: the exponential cliff formula and its increments -/

/-- C6 (corrected claim, counterexample): for SOFT tires the claimed
strictly-accelerating inequality at the cliff edge fails: the increment
from age 25 (max laps) to 26 is 1.5 times wear_end = 3/10, while the
increment from 26 to 27 is only 0.75 times wear_end = 3/20, so
wear(27) - wear(26) > wear(26) - wear(25) is false. -/
theorem C6_counterexample :
    ¬ (wearRateN Compound.SOFT 27 - wearRateN Compound.SOFT 26 >
        wearRateN Compound.SOFT 26 - wearRateN Compound.SOFT 25) := by
  norm_num [wearRateN, COMPOUND_WEAR_RATES, linspaceIdx]

/-- C6 (amended): for every compound and tire age strictly beyond
max_laps the wear rate equals wear_end + wear_end * (3/2)^(age - max),
exactly as claimed; and consecutive per-lap wear increases are strictly
accelerating from age max_laps + 1 onward, that is
wear(a+2) - wear(a+1) > wear(a+1) - wear(a) for every a >= max_laps + 1.
The claimed instance at a = max_laps itself is reversed, because the
first cliff increment (1.5 wear_end) already exceeds the second
(0.75 wear_end). -/
theorem C6_cliff_formula_and_acceleration (c : Compound) (a : ℕ) :
    ((COMPOUND_WEAR_RATES c).max_laps < a →
      wearRateN c a = (COMPOUND_WEAR_RATES c).wear_end +
        (COMPOUND_WEAR_RATES c).wear_end * (3/2) ^ (a - (COMPOUND_WEAR_RATES c).max_laps)) ∧
    ((COMPOUND_WEAR_RATES c).max_laps + 1 ≤ a →
      wearRateN c (a + 2) - wearRateN c (a + 1) >
        wearRateN c (a + 1) - wearRateN c a) := by
  have hform : ∀ b : ℕ, (COMPOUND_WEAR_RATES c).max_laps < b →
      wearRateN c b = (COMPOUND_WEAR_RATES c).wear_end +
        (COMPOUND_WEAR_RATES c).wear_end * (3/2) ^ (b - (COMPOUND_WEAR_RATES c).max_laps) := by
    intro b hb
    unfold wearRateN
    rw [if_neg (by omega)]
  refine ⟨hform a, ?_⟩
  intro ha
  set M := (COMPOUND_WEAR_RATES c).max_laps with hM
  set w := (COMPOUND_WEAR_RATES c).wear_end with hw
  have hwpos : 0 < w := wear_end_pos c
  have e1 : a + 1 - M = a - M + 1 := by omega
  have e2 : a + 2 - M = a - M + 2 := by omega
  have h0 : wearRateN c a = w + w * (3/2) ^ (a - M) := hform a (by omega)
  have h1 : wearRateN c (a + 1) = w + w * (3/2) ^ (a - M + 1) := by
    rw [hform (a + 1) (by omega), e1]
  have h2 : wearRateN c (a + 2) = w + w * (3/2) ^ (a - M + 2) := by
    rw [hform (a + 2) (by omega), e2]
  rw [h0, h1, h2]
  have hx : (0 : ℚ) < (3/2) ^ (a - M) := by positivity
  have hwx : (0 : ℚ) < w * (3/2) ^ (a - M) := mul_pos hwpos hx
  rw [pow_succ, pow_succ]
  nlinarith [hwx]

/-- C6 witness: the amended theorem applied to SOFT tires at age 26:
the cliff formula at one lap over, and strict acceleration of the
increments ending at ages 26, 27, 28. -/
theorem C6_witness :
    wearRateN Compound.SOFT 26 = (1/2 : ℚ) ∧
    wearRateN Compound.SOFT 28 - wearRateN Compound.SOFT 27 >
      wearRateN Compound.SOFT 27 - wearRateN Compound.SOFT 26 := by
  constructor
  · have h := (C6_cliff_formula_and_acceleration Compound.SOFT 26).1
      (by norm_num [COMPOUND_WEAR_RATES])
    norm_num [COMPOUND_WEAR_RATES] at h
    exact h
  · have h := (C6_cliff_formula_and_acceleration Compound.SOFT 26).2
      (by norm_num [COMPOUND_WEAR_RATES])
    simpa using h

/-! ## C7: shape of the optimal_pit_window result on a non-empty range -/

/-- The scenario comparison is transitive. -/
theorem scenLE_trans : ∀ a b c : BaseScenario,
    scenLE a b = true → scenLE b c = true → scenLE a c = true := by
  intro a b c hab hbc
  simp only [scenLE, decide_eq_true_eq] at hab hbc ⊢
  exact le_trans hab hbc

/-- The scenario comparison is total. -/
theorem scenLE_total : ∀ a b : BaseScenario, (scenLE a b || scenLE b a) = true := by
  intro a b
  simp only [scenLE, Bool.or_eq_true, decide_eq_true_eq]
  exact le_total _ _

/-- Every base scenario records its total as stint1 + pit loss + stint2. -/
theorem baseScenarios_total (m : TireDegradationModel) (current_lap : ℕ)
    (c1 c2 : Compound) :
    ∀ b ∈ baseScenarios m current_lap c1 c2,
      b.total_race_time = b.stint1_time + PIT_TIME_LOSS + b.stint2_time := by
  intro b hb
  simp only [baseScenarios, List.mem_map] at hb
  obtain ⟨p, -, rfl⟩ := hb
  rfl

/-- The pit laps of the base scenarios are exactly the candidate range. -/
theorem baseScenarios_map_pit_lap (m : TireDegradationModel) (current_lap : ℕ)
    (c1 c2 : Compound) :
    (baseScenarios m current_lap c1 c2).map (fun b => b.pit_lap) =
      List.range' current_lap (m.total_laps - current_lap) := by
  simp [baseScenarios, List.map_map]
  exact List.map_id _

/-- C7: whenever the current lap is strictly before the race end,
optimal_pit_window returns a non-empty list with one entry per candidate
pit lap in [current_lap, total_laps - 1], pairwise sorted by ascending
total race time, where every total equals stint1 + PIT_TIME_LOSS +
stint2, every delta to the optimum is non-negative, and the first entry
has delta exactly zero. -/
theorem C7_optimal_pit_window_shape (m : TireDegradationModel) (current_lap : ℕ)
    (c1 c2 : Compound) (h : current_lap < m.total_laps) :
    ∃ l, optimal_pit_window m current_lap c1 c2 = some l ∧ l ≠ [] ∧
      (l.map (fun s => s.pit_lap)).Perm (List.range' current_lap (m.total_laps - current_lap)) ∧
      l.Pairwise (fun a b => a.total_race_time ≤ b.total_race_time) ∧
      (∀ s ∈ l, s.total_race_time = s.stint1_time + PIT_TIME_LOSS + s.stint2_time) ∧
      (∀ s ∈ l, 0 ≤ s.time_vs_optimal) ∧
      (∀ s0, l.head? = some s0 → s0.time_vs_optimal = 0) := by
  classical
  set base := baseScenarios m current_lap c1 c2 with hbase
  have hlen : base.length = m.total_laps - current_lap := by
    simp [hbase, baseScenarios]
  have hperm : (base.mergeSort scenLE).Perm base := List.mergeSort_perm base scenLE
  have hsorted : (base.mergeSort scenLE).Pairwise (fun a b => scenLE a b = true) :=
    List.sorted_mergeSort scenLE_trans scenLE_total base
  have hne : base.mergeSort scenLE ≠ [] := by
    intro h0
    have hl := hperm.length_eq
    rw [h0] at hl
    simp only [List.length_nil] at hl
    omega
  cases hms : base.mergeSort scenLE with
  | nil => exact absurd hms hne
  | cons s0 rest =>
    rw [hms] at hperm hsorted
    have hmem_base : ∀ b ∈ s0 :: rest, b ∈ base := fun b hb => hperm.subset hb
    have hmin : ∀ b ∈ s0 :: rest, s0.total_race_time ≤ b.total_race_time := by
      intro b hb
      rcases List.mem_cons.mp hb with hb0 | hbr
      · rw [hb0]
      · have := (List.pairwise_cons.mp hsorted).1 b hbr
        simpa [scenLE, decide_eq_true_eq] using this
    refine ⟨(s0 :: rest).map (fun s => addDelta s s0.total_race_time), ?_, ?_, ?_, ?_, ?_, ?_, ?_⟩
    · simp only [optimal_pit_window]
      rw [← hbase, hms]
    · simp
    · have hmapeq : ((s0 :: rest).map (fun s => addDelta s s0.total_race_time)).map
          (fun s => s.pit_lap) = (s0 :: rest).map (fun b => b.pit_lap) := by
        rw [List.map_map]
        rfl
      rw [hmapeq, ← baseScenarios_map_pit_lap m current_lap c1 c2, ← hbase]
      exact hperm.map (fun b => b.pit_lap)
    · refine List.Pairwise.map _ ?_ hsorted
      intro a b hab
      simpa [addDelta, scenLE, decide_eq_true_eq] using hab
    · intro s hs
      obtain ⟨b, hb, rfl⟩ := List.mem_map.mp hs
      have hb_base : b ∈ base := hmem_base b hb
      have := baseScenarios_total m current_lap c1 c2 b (hbase ▸ hb_base)
      simpa [addDelta] using this
    · intro s hs
      obtain ⟨b, hb, rfl⟩ := List.mem_map.mp hs
      have := hmin b hb
      simp only [addDelta]
      linarith
    · intro t ht
      simp only [List.map_cons, List.head?_cons, Option.some.injEq] at ht
      rw [← ht]
      simp [addDelta]

/-- C7 witness: the shape theorem applied over a 57-lap race queried from
lap 1 with SOFT then MEDIUM. -/
theorem C7_witness :
    ∃ l, optimal_pit_window ⟨57, 965/10, 1⟩ 1 Compound.SOFT Compound.MEDIUM = some l ∧
      l ≠ [] ∧
      (l.map (fun s => s.pit_lap)).Perm (List.range' 1 56) ∧
      l.Pairwise (fun a b => a.total_race_time ≤ b.total_race_time) ∧
      (∀ s ∈ l, s.total_race_time = s.stint1_time + PIT_TIME_LOSS + s.stint2_time) ∧
      (∀ s ∈ l, 0 ≤ s.time_vs_optimal) ∧
      (∀ s0, l.head? = some s0 → s0.time_vs_optimal = 0) :=
  C7_optimal_pit_window_shape ⟨57, 965/10, 1⟩ 1 Compound.SOFT Compound.MEDIUM (by norm_num)

/-! ## Characterization of the generate_pit_window loop -/

/-- A loop step from an unset best impact: the entry is classified with
the first flag (green gives RECOMMENDED) and the best lap and impact are
set to the current pit lap and 25. -/
theorem genStep_none (cl ta : ℕ) (cc : Compound) (lr : ℤ) (ml : ℕ)
    (st : GenLoopState) (h : st.best_impact = none) (o : ℕ) :
    genStep cl ta cc lr ml st o =
      ⟨st.lap_details ++ [lapDetailAt cl ta cc lr ml true o], some (cl + o), some 25⟩ := by
  simp [genStep, lapDetailAt, classifyPct, impactImproves, calculate_pit_impact_fst, h]

/-- A loop step from a best impact already equal to 25: the entry is
classified with the first flag off (green gives HIGHLY_RECOMMENDED) and
the best lap and impact are unchanged. -/
theorem genStep_some25 (cl ta : ℕ) (cc : Compound) (lr : ℤ) (ml : ℕ)
    (st : GenLoopState) (h : st.best_impact = some 25) (o : ℕ) :
    genStep cl ta cc lr ml st o =
      ⟨st.lap_details ++ [lapDetailAt cl ta cc lr ml false o], st.best_lap, some 25⟩ := by
  simp [genStep, lapDetailAt, classifyPct, impactImproves, calculate_pit_impact_fst, h]

/-- Folding the loop from a best impact of 25 appends one closed-form
entry per offset and never changes the tracked best lap. -/
theorem foldl_genStep_some25 (cl ta : ℕ) (cc : Compound) (lr : ℤ) (ml : ℕ) :
    ∀ (l : List ℕ) (st : GenLoopState), st.best_impact = some 25 →
      l.foldl (genStep cl ta cc lr ml) st =
        ⟨st.lap_details ++ l.map (lapDetailAt cl ta cc lr ml false), st.best_lap, some 25⟩ := by
  intro l
  induction l with
  | nil =>
    intro st h
    cases st with
    | mk d b i =>
      have h2 : i = some 25 := h
      simp [List.foldl_nil, h2]
  | cons o rest ih =>
    intro st h
    rw [List.foldl_cons, genStep_some25 cl ta cc lr ml st h o, ih _ rfl]
    simp

/-- The full loop of generate_pit_window in closed form: one entry per
offset in 0..min 15 laps_remaining, the first classified with the first
flag, and the tracked best lap is always the current lap with best
impact 25. -/
theorem genFold_eq (cl ta : ℕ) (cc : Compound) (lr : ℕ) (w : ℕ) :
    (List.range (w + 1)).foldl
        (genStep cl ta cc (lr : ℤ) (COMPOUND_WEAR_RATES cc).max_laps)
        ⟨[], none, none⟩ =
      ⟨lapDetailAt cl ta cc (lr : ℤ) (COMPOUND_WEAR_RATES cc).max_laps true 0 ::
          (List.range' 1 w).map (lapDetailAt cl ta cc (lr : ℤ) (COMPOUND_WEAR_RATES cc).max_laps false),
        some cl, some 25⟩ := by
  have hr : List.range (w + 1) = 0 :: List.range' 1 w := by
    rw [List.range_eq_range']
    rfl
  rw [hr, List.foldl_cons,
    genStep_none cl ta cc (lr : ℤ) (COMPOUND_WEAR_RATES cc).max_laps ⟨[], none, none⟩ rfl 0,
    foldl_genStep_some25 cl ta cc (lr : ℤ) (COMPOUND_WEAR_RATES cc).max_laps _ _ rfl]
  simp

/-- The lap details of generate_pit_window in closed form, together with
the tracked best lap (always the current lap) and best impact. -/
theorem gen_window_fields (cl ta : ℕ) (cc : Compound) (lr : ℕ) :
    (generate_pit_window cl ta cc lr).lap_details =
      lapDetailAt cl ta cc (lr : ℤ) (COMPOUND_WEAR_RATES cc).max_laps true 0 ::
        (List.range' 1 (min 15 lr)).map
          (lapDetailAt cl ta cc (lr : ℤ) (COMPOUND_WEAR_RATES cc).max_laps false) ∧
    (generate_pit_window cl ta cc lr).best_lap = some cl ∧
    (generate_pit_window cl ta cc lr).best_impact = some 25 ∧
    (generate_pit_window cl ta cc lr).optimal_lap =
      (pickOptimal (generate_pit_window cl ta cc lr).lap_details (some cl)).map
        (fun p => p.1) ∧
    (generate_pit_window cl ta cc lr).recommended_window =
      ((generate_pit_window cl ta cc lr).lap_details.filter isGreen).map
        (fun l => l.lap_number) ∧
    (generate_pit_window cl ta cc lr).acceptable_window =
      ((generate_pit_window cl ta cc lr).lap_details.filter
        (fun l => decide (l.recommendation = Rec.ACCEPTABLE))).map
        (fun l => l.lap_number) := by
  refine ⟨?_, ?_, ?_, ?_, ?_, ?_⟩ <;>
    simp only [generate_pit_window, genFold_eq cl ta cc lr (min 15 lr)]

/-- Case analysis of the closed-form wear-fraction classification on the
four bands of the claim. -/
theorem classifyPct_spec (p : ℚ) (first : Bool) :
    (p < 70/100 → classifyPct p first = Rec.ACCEPTABLE) ∧
    (70/100 ≤ p → p ≤ 85/100 →
      classifyPct p first = (if first then Rec.RECOMMENDED else Rec.HIGHLY_RECOMMENDED)) ∧
    (85/100 < p → p ≤ 95/100 → classifyPct p first = Rec.RISKY) ∧
    (95/100 < p → classifyPct p first = Rec.DANGER) := by
  unfold classifyPct
  refine ⟨?_, ?_, ?_, ?_⟩
  · intro h1
    rw [if_pos h1]
  · intro h1 h2
    rw [if_neg (by linarith), if_pos h2]
  · intro h1 h2
    rw [if_neg (by linarith), if_neg (by linarith), if_pos h2]
  · intro h1
    rw [if_neg (by linarith), if_neg (by linarith), if_neg (by linarith)]

/-! ## C8: wear-fraction band boundaries of generate_pit_window -/

/-- C8: every lap entry generated by generate_pit_window is banded by the
wear fraction tire age over max laps with exactly the claimed inclusive
boundaries: below 0.70 acceptable, from 0.70 up to and including 0.85
green (optimal), above 0.85 up to and including 0.95 risky, above 0.95
danger. -/
theorem C8_band_boundaries (cl ta : ℕ) (cc : Compound) (lr : ℕ) (e : PitWindowLap)
    (he : e ∈ (generate_pit_window cl ta cc lr).lap_details) :
    ((e.tire_age_at_lap : ℚ) / ((COMPOUND_WEAR_RATES cc).max_laps : ℚ) < 70/100 →
      e.recommendation = Rec.ACCEPTABLE) ∧
    (70/100 ≤ (e.tire_age_at_lap : ℚ) / ((COMPOUND_WEAR_RATES cc).max_laps : ℚ) →
      (e.tire_age_at_lap : ℚ) / ((COMPOUND_WEAR_RATES cc).max_laps : ℚ) ≤ 85/100 →
      isGreen e = true) ∧
    (85/100 < (e.tire_age_at_lap : ℚ) / ((COMPOUND_WEAR_RATES cc).max_laps : ℚ) →
      (e.tire_age_at_lap : ℚ) / ((COMPOUND_WEAR_RATES cc).max_laps : ℚ) ≤ 95/100 →
      e.recommendation = Rec.RISKY) ∧
    (95/100 < (e.tire_age_at_lap : ℚ) / ((COMPOUND_WEAR_RATES cc).max_laps : ℚ) →
      e.recommendation = Rec.DANGER) := by
  have key : ∀ (first : Bool) (o : ℕ),
      let d := lapDetailAt cl ta cc (lr : ℤ) (COMPOUND_WEAR_RATES cc).max_laps first o
      ((d.tire_age_at_lap : ℚ) / ((COMPOUND_WEAR_RATES cc).max_laps : ℚ) < 70/100 →
        d.recommendation = Rec.ACCEPTABLE) ∧
      (70/100 ≤ (d.tire_age_at_lap : ℚ) / ((COMPOUND_WEAR_RATES cc).max_laps : ℚ) →
        (d.tire_age_at_lap : ℚ) / ((COMPOUND_WEAR_RATES cc).max_laps : ℚ) ≤ 85/100 →
        isGreen d = true) ∧
      (85/100 < (d.tire_age_at_lap : ℚ) / ((COMPOUND_WEAR_RATES cc).max_laps : ℚ) →
        (d.tire_age_at_lap : ℚ) / ((COMPOUND_WEAR_RATES cc).max_laps : ℚ) ≤ 95/100 →
        d.recommendation = Rec.RISKY) ∧
      (95/100 < (d.tire_age_at_lap : ℚ) / ((COMPOUND_WEAR_RATES cc).max_laps : ℚ) →
        d.recommendation = Rec.DANGER) := by
    intro first o
    have hs := classifyPct_spec
      (((ta + o : ℕ) : ℚ) / ((COMPOUND_WEAR_RATES cc).max_laps : ℚ)) first
    refine ⟨hs.1, ?_, hs.2.2.1, hs.2.2.2⟩
    intro h1 h2
    have hgr := hs.2.1 h1 h2
    show isGreen (lapDetailAt cl ta cc (lr : ℤ) (COMPOUND_WEAR_RATES cc).max_laps first o) = true
    cases first with
    | false =>
      have hgr2 : classifyPct (((ta + o : ℕ) : ℚ) / ((COMPOUND_WEAR_RATES cc).max_laps : ℚ))
          false = Rec.HIGHLY_RECOMMENDED := by simpa using hgr
      simp only [isGreen, lapDetailAt, hgr2]
      rfl
    | true =>
      have hgr2 : classifyPct (((ta + o : ℕ) : ℚ) / ((COMPOUND_WEAR_RATES cc).max_laps : ℚ))
          true = Rec.RECOMMENDED := by simpa using hgr
      simp only [isGreen, lapDetailAt, hgr2]
      rfl
  rw [(gen_window_fields cl ta cc lr).1] at he
  rcases List.mem_cons.mp he with rfl | hmem
  · exact key true 0
  · obtain ⟨o, -, rfl⟩ := List.mem_map.mp hmem
    exact key false o

/-- C8 witness: the band theorem applied at two concrete MEDIUM-tire
windows: the head entry at wear fraction exactly 0.70 (tire age 28 of 40)
is in the green band, and the head entry at wear fraction 0.50 (tire age
20 of 40) is classified acceptable. -/
theorem C8_witness :
    isGreen (lapDetailAt 29 28 Compound.MEDIUM (20 : ℤ) 40 true 0) = true ∧
    (lapDetailAt 21 20 Compound.MEDIUM (20 : ℤ) 40 true 0).recommendation = Rec.ACCEPTABLE := by
  constructor
  · have hmem : lapDetailAt 29 28 Compound.MEDIUM (20 : ℤ) 40 true 0 ∈
        (generate_pit_window 29 28 Compound.MEDIUM 20).lap_details := by
      rw [(gen_window_fields 29 28 Compound.MEDIUM 20).1]
      exact List.mem_cons_self _ _
    exact (C8_band_boundaries 29 28 Compound.MEDIUM 20 _ hmem).2.1
      (by norm_num [lapDetailAt, COMPOUND_WEAR_RATES])
      (by norm_num [lapDetailAt, COMPOUND_WEAR_RATES])
  · have hmem : lapDetailAt 21 20 Compound.MEDIUM (20 : ℤ) 40 true 0 ∈
        (generate_pit_window 21 20 Compound.MEDIUM 20).lap_details := by
      rw [(gen_window_fields 21 20 Compound.MEDIUM 20).1]
      exact List.mem_cons_self _ _
    exact (C8_band_boundaries 21 20 Compound.MEDIUM 20 _ hmem).1
      (by norm_num [lapDetailAt, COMPOUND_WEAR_RATES])

/-! ## C9: optimal-lap selection of generate_pit_window -/

/-- The lap numbers of the generated lap details are strictly
increasing. -/
theorem lap_details_pairwise_lt (cl ta : ℕ) (cc : Compound) (lr : ℕ) :
    (generate_pit_window cl ta cc lr).lap_details.Pairwise
      (fun a b => a.lap_number < b.lap_number) := by
  rw [(gen_window_fields cl ta cc lr).1]
  refine List.pairwise_cons.mpr ⟨?_, ?_⟩
  · intro b hb
    obtain ⟨o, ho, rfl⟩ := List.mem_map.mp hb
    have h1 : 1 ≤ o := (List.mem_range'_1.mp ho).1
    show cl + 0 < cl + o
    omega
  · refine List.Pairwise.map _ ?_ (List.pairwise_lt_range' 1 (min 15 lr))
    intro a b hab
    show cl + a < cl + b
    omega

/-- pickOptimal with a non-empty green band returns the middle green
entry. -/
theorem pickOptimal_of_green (l : List PitWindowLap) (bl : Option ℕ) (mid : PitWindowLap)
    (h : (l.filter isGreen).get? ((l.filter isGreen).length / 2) = some mid) :
    pickOptimal l bl = some (mid.lap_number, mid.best_compound) := by
  simp only [pickOptimal, h]

/-- pickOptimal with an empty green band and a non-empty acceptable band
returns the last acceptable entry. -/
theorem pickOptimal_of_acc (l : List PitWindowLap) (bl : Option ℕ) (last : PitWindowLap)
    (hg : l.filter isGreen = [])
    (h : (l.filter (fun x => decide (x.recommendation = Rec.ACCEPTABLE))).getLast? = some last) :
    pickOptimal l bl = some (last.lap_number, last.best_compound) := by
  simp only [pickOptimal, hg, h]
  rfl

/-- pickOptimal with both bands empty returns the first lap entry whose
lap number matches the tracked best lap. -/
theorem pickOptimal_fallback (l : List PitWindowLap) (bl : ℕ) (d : PitWindowLap)
    (hg : l.filter isGreen = [])
    (ha : l.filter (fun x => decide (x.recommendation = Rec.ACCEPTABLE)) = [])
    (hd : (l.filter (fun x => decide (x.lap_number = bl))).head? = some d) :
    pickOptimal l (some bl) = some (d.lap_number, d.best_compound) := by
  simp only [pickOptimal, hg, ha, hd]
  rfl

/-- C9 (amended): the optimal lap of generate_pit_window is the middle
entry of the green band when the green band is non-empty (and with at
least two green laps it is never the first green lap); with no green band
it is the last acceptable lap; and with neither band it falls back to the
tracked best lap, which, because the heuristic pit impact is the constant
25, is always the first lap of the analyzed window (the current lap),
not the brute-force optimum of the tire model. -/
theorem C9_optimal_lap_rule (cl ta : ℕ) (cc : Compound) (lr : ℕ) :
    (greenBand (generate_pit_window cl ta cc lr) ≠ [] →
      (generate_pit_window cl ta cc lr).optimal_lap =
        ((greenBand (generate_pit_window cl ta cc lr)).get?
          ((greenBand (generate_pit_window cl ta cc lr)).length / 2)).map
          (fun l => l.lap_number)) ∧
    (2 ≤ (greenBand (generate_pit_window cl ta cc lr)).length →
      (generate_pit_window cl ta cc lr).optimal_lap ≠
        ((greenBand (generate_pit_window cl ta cc lr)).head?).map
          (fun l => l.lap_number)) ∧
    (greenBand (generate_pit_window cl ta cc lr) = [] →
      accBand (generate_pit_window cl ta cc lr) ≠ [] →
      (generate_pit_window cl ta cc lr).optimal_lap =
        ((accBand (generate_pit_window cl ta cc lr)).getLast?).map
          (fun l => l.lap_number)) ∧
    (greenBand (generate_pit_window cl ta cc lr) = [] →
      accBand (generate_pit_window cl ta cc lr) = [] →
      (generate_pit_window cl ta cc lr).optimal_lap = some cl) := by
  obtain ⟨hdet, hbest, hbestimp, hopt, hrw, haw⟩ := gen_window_fields cl ta cc lr
  have hgreen_def : greenBand (generate_pit_window cl ta cc lr) =
      (generate_pit_window cl ta cc lr).lap_details.filter isGreen := rfl
  have hacc_def : accBand (generate_pit_window cl ta cc lr) =
      (generate_pit_window cl ta cc lr).lap_details.filter
        (fun x => decide (x.recommendation = Rec.ACCEPTABLE)) := rfl
  have hmid : greenBand (generate_pit_window cl ta cc lr) ≠ [] →
      (generate_pit_window cl ta cc lr).optimal_lap =
        ((greenBand (generate_pit_window cl ta cc lr)).get?
          ((greenBand (generate_pit_window cl ta cc lr)).length / 2)).map
          (fun l => l.lap_number) := by
    intro hne
    have hlen : 0 < (greenBand (generate_pit_window cl ta cc lr)).length :=
      List.length_pos.mpr hne
    have hidx : (greenBand (generate_pit_window cl ta cc lr)).length / 2 <
        (greenBand (generate_pit_window cl ta cc lr)).length :=
      Nat.div_lt_self hlen (by norm_num)
    rw [hopt, pickOptimal_of_green _ _ _ (List.get?_eq_get hidx), List.get?_eq_get hidx]
    rfl
  refine ⟨hmid, ?_, ?_, ?_⟩
  · intro h2
    have hne : greenBand (generate_pit_window cl ta cc lr) ≠ [] := by
      intro h0
      rw [h0] at h2
      simp at h2
    rw [hmid hne]
    have hpair : (greenBand (generate_pit_window cl ta cc lr)).Pairwise
        (fun a b => a.lap_number < b.lap_number) :=
      List.Pairwise.sublist (List.filter_sublist _) (lap_details_pairwise_lt cl ta cc lr)
    cases hcase : greenBand (generate_pit_window cl ta cc lr) with
    | nil => exact absurd hcase hne
    | cons a t =>
      rw [hcase] at hpair h2
      simp only [List.length_cons] at h2
      have hidx_eq : (a :: t).length / 2 = ((t.length + 1) / 2 - 1) + 1 := by
        simp only [List.length_cons]
        omega
      have hjlt : (t.length + 1) / 2 - 1 < t.length := by omega
      rw [hidx_eq, List.get?_cons_succ, List.get?_eq_get hjlt]
      simp only [List.head?_cons]
      intro hcontra
      have hinj : (t.get ⟨(t.length + 1) / 2 - 1, hjlt⟩).lap_number = a.lap_number := by
        simpa using hcontra
      have hmem : t.get ⟨(t.length + 1) / 2 - 1, hjlt⟩ ∈ t := List.get_mem t _ hjlt
      have hlt := (List.pairwise_cons.mp hpair).1 _ hmem
      omega
  · intro hgnil hane
    cases hlast : (accBand (generate_pit_window cl ta cc lr)).getLast? with
    | none => exact absurd (List.getLast?_eq_none_iff.mp hlast) hane
    | some last =>
      rw [hopt, pickOptimal_of_acc _ _ last hgnil hlast]
      rfl
  · intro hgnil hanil
    have hd : ((generate_pit_window cl ta cc lr).lap_details.filter
        (fun x => decide (x.lap_number = cl))).head? =
        some (lapDetailAt cl ta cc (lr : ℤ) (COMPOUND_WEAR_RATES cc).max_laps true 0) := by
      rw [hdet]
      simp [List.filter_cons, lapDetailAt]
    rw [hopt, pickOptimal_fallback _ cl _ hgnil hanil hd]
    rfl

/-- C9 witness: the selection rule applied concretely: on lap 18 with
17-lap-old SOFT tires and 6 laps remaining, the green band covers laps
19 to 22 and the chosen optimal lap is the middle green lap 21, not the
first green lap 19. -/
theorem C9_witness :
    (generate_pit_window 18 17 Compound.SOFT 6).optimal_lap = some 21 ∧
    (generate_pit_window 18 17 Compound.SOFT 6).optimal_lap ≠ some 19 ∧
    ((greenBand (generate_pit_window 18 17 Compound.SOFT 6)).head?).map
      (fun l => l.lap_number) = some 19 := by
  have hg : greenBand (generate_pit_window 18 17 Compound.SOFT 6) =
      [lapDetailAt 18 17 Compound.SOFT 6 25 false 1,
        lapDetailAt 18 17 Compound.SOFT 6 25 false 2,
        lapDetailAt 18 17 Compound.SOFT 6 25 false 3,
        lapDetailAt 18 17 Compound.SOFT 6 25 false 4] := by
    show (generate_pit_window 18 17 Compound.SOFT 6).lap_details.filter isGreen = _
    rw [(gen_window_fields 18 17 Compound.SOFT 6).1]
    norm_num [List.range', List.filter_cons, isGreen, lapDetailAt, classifyPct,
      calculate_pit_impact_at_lap, COMPOUND_WEAR_RATES]
    simp
  refine ⟨?_, ?_, ?_⟩
  · have h1 := (C9_optimal_lap_rule 18 17 Compound.SOFT 6).1 (by rw [hg]; simp)
    rw [hg] at h1
    simpa [lapDetailAt] using h1
  · have h2 := (C9_optimal_lap_rule 18 17 Compound.SOFT 6).2.1 (by rw [hg]; norm_num)
    rw [hg] at h2
    simpa [lapDetailAt] using h2
  · rw [hg]
    simp [lapDetailAt]

/-- C9 (corrected claim, counterexample): on lap 54 with 26-lap-old SOFT
tires (past the cliff) and 3 laps remaining, every window lap is in the
danger band, so both the green and acceptable bands are empty and the
fallback fires: generate_pit_window returns optimal lap 54, the first lap
of its window, while the brute-force optimum of the tire model for the
same situation (57-lap race, SOFT then MEDIUM) is a later lap - the head
of the sorted scenario list does not pit at lap 54 - refuting the claim
that the fallback is the brute-force optimum pit lap. -/
theorem C9_counterexample :
    (generate_pit_window 54 26 Compound.SOFT 3).recommended_window = [] ∧
    (generate_pit_window 54 26 Compound.SOFT 3).acceptable_window = [] ∧
    (generate_pit_window 54 26 Compound.SOFT 3).optimal_lap = some 54 ∧
    ((optimal_pit_window ⟨57, 965/10, 1⟩ 54 Compound.SOFT Compound.MEDIUM).bind
        List.head?).map (fun s => decide (s.pit_lap = 54)) = some false := by
  have hfields := gen_window_fields 54 26 Compound.SOFT 3
  have hgnil : greenBand (generate_pit_window 54 26 Compound.SOFT 3) = [] := by
    show (generate_pit_window 54 26 Compound.SOFT 3).lap_details.filter isGreen = _
    rw [hfields.1]
    norm_num [List.range', List.filter_cons, isGreen, lapDetailAt, classifyPct,
      calculate_pit_impact_at_lap, COMPOUND_WEAR_RATES]
    simp
  have hanil : accBand (generate_pit_window 54 26 Compound.SOFT 3) = [] := by
    show (generate_pit_window 54 26 Compound.SOFT 3).lap_details.filter
      (fun x => decide (x.recommendation = Rec.ACCEPTABLE)) = _
    rw [hfields.1]
    norm_num [List.range', List.filter_cons, lapDetailAt, classifyPct,
      calculate_pit_impact_at_lap, COMPOUND_WEAR_RATES]
    simp
  refine ⟨?_, ?_, ?_, ?_⟩
  · rw [hfields.2.2.2.2.1]
    rw [show (generate_pit_window 54 26 Compound.SOFT 3).lap_details.filter isGreen =
      greenBand (generate_pit_window 54 26 Compound.SOFT 3) from rfl, hgnil]
    rfl
  · rw [hfields.2.2.2.2.2]
    rw [show (generate_pit_window 54 26 Compound.SOFT 3).lap_details.filter
      (fun l => decide (l.recommendation = Rec.ACCEPTABLE)) =
      accBand (generate_pit_window 54 26 Compound.SOFT 3) from rfl, hanil]
    rfl
  · have hd : ((generate_pit_window 54 26 Compound.SOFT 3).lap_details.filter
        (fun x => decide (x.lap_number = 54))).head? =
        some (lapDetailAt 54 26 Compound.SOFT (3 : ℤ)
          (COMPOUND_WEAR_RATES Compound.SOFT).max_laps true 0) := by
      rw [hfields.1]
      simp [List.filter_cons, lapDetailAt]
    rw [hfields.2.2.2.1, pickOptimal_fallback _ 54 _ hgnil hanil hd]
    rfl
  · have hstrict : (calculate_stint_time ⟨57, 965/10, 1⟩ 54 56 Compound.SOFT 1 +
        PIT_TIME_LOSS + calculate_stint_time ⟨57, 965/10, 1⟩ 57 57 Compound.MEDIUM 1) <
        (calculate_stint_time ⟨57, 965/10, 1⟩ 54 54 Compound.SOFT 1 +
        PIT_TIME_LOSS + calculate_stint_time ⟨57, 965/10, 1⟩ 55 57 Compound.MEDIUM 1) := by
      norm_num [calculate_stint_time, calculate_laptime, wearRateN, linspaceIdx,
        COMPOUND_WEAR_RATES, TireDegradationModel.fuel_correction_per_lap,
        TireDegradationModel.fuel_consumption_per_lap, FUEL_QUANTITY, TIME_PER_KG,
        PIT_TIME_LOSS, List.range_succ]
    set base := baseScenarios ⟨57, 965/10, 1⟩ 54 Compound.SOFT Compound.MEDIUM with hbase
    have hperm : (base.mergeSort scenLE).Perm base := List.mergeSort_perm base scenLE
    have hsorted : (base.mergeSort scenLE).Pairwise (fun a b => scenLE a b = true) :=
      List.sorted_mergeSort scenLE_trans scenLE_total base
    have hne : base.mergeSort scenLE ≠ [] := by
      intro h0
      have hl := hperm.length_eq
      rw [h0] at hl
      simp only [List.length_nil, hbase, baseScenarios] at hl
      simp at hl
    cases hms : base.mergeSort scenLE with
    | nil => exact absurd hms hne
    | cons s0 rest =>
      rw [hms] at hperm hsorted
      have hmin : ∀ b ∈ s0 :: rest, s0.total_race_time ≤ b.total_race_time := by
        intro b hb
        rcases List.mem_cons.mp hb with hb0 | hbr
        · rw [hb0]
        · have := (List.pairwise_cons.mp hsorted).1 b hbr
          simpa [scenLE, decide_eq_true_eq] using this
      have h56mem : (⟨56, calculate_stint_time ⟨57, 965/10, 1⟩ 54 56 Compound.SOFT 1 +
          PIT_TIME_LOSS + calculate_stint_time ⟨57, 965/10, 1⟩ 57 57 Compound.MEDIUM 1,
          calculate_stint_time ⟨57, 965/10, 1⟩ 54 56 Compound.SOFT 1,
          calculate_stint_time ⟨57, 965/10, 1⟩ 57 57 Compound.MEDIUM 1,
          PIT_TIME_LOSS⟩ : BaseScenario) ∈ s0 :: rest := by
        refine hperm.mem_iff.mpr ?_
        rw [hbase]
        simp only [baseScenarios, List.mem_map]
        refine ⟨56, ?_, rfl⟩
        rw [List.mem_range'_1]
        norm_num
      have hs0_base : s0 ∈ base := hperm.subset (List.mem_cons_self _ _)
      rw [hbase] at hs0_base
      simp only [baseScenarios, List.mem_map] at hs0_base
      obtain ⟨p, hp, hfp⟩ := hs0_base
      have hpit : s0.pit_lap = p := by rw [← hfp]
      have hp54 : p ≠ 54 := by
        intro hp_eq
        subst hp_eq
        have hle := hmin _ h56mem
        rw [← hfp] at hle
        have hle2 : (calculate_stint_time ⟨57, 965/10, 1⟩ 54 54 Compound.SOFT 1 +
            PIT_TIME_LOSS + calculate_stint_time ⟨57, 965/10, 1⟩ 55 57 Compound.MEDIUM 1) ≤
            (calculate_stint_time ⟨57, 965/10, 1⟩ 54 56 Compound.SOFT 1 +
            PIT_TIME_LOSS + calculate_stint_time ⟨57, 965/10, 1⟩ 57 57 Compound.MEDIUM 1) := hle
        linarith
      have hwin : optimal_pit_window ⟨57, 965/10, 1⟩ 54 Compound.SOFT Compound.MEDIUM =
          some ((s0 :: rest).map (fun s => addDelta s s0.total_race_time)) := by
        simp only [optimal_pit_window]
        rw [← hbase, hms]
      rw [hwin]
      simp only [List.map_cons, Option.some_bind, List.head?_cons, Option.map_some']
      congr 1
      rw [show (addDelta s0 s0.total_race_time).pit_lap = p from hpit]
      exact decide_eq_false hp54
